import Mathlib

/-!
Verification of the TCP header codec in `src/tcp.c` of BareMetal-networking.

The file `src/tcp.c` is embedded shallowly: the header value object becomes a
structure of `Nat` fields (C `unsigned int` / `unsigned long int` values are
non-negative integers; wherever the C code masks or truncates, the embedding
does so explicitly), byte memory becomes `List Nat` with every read reduced
modulo 256 (the `unsigned char` type of the C pointer), and each C function
becomes a Lean function returning its `int` error code together with the
updated state.

The headers `netstack/tcp.h`, `netstack/error.h`, `netstack/buffer.h` and
`netstack/mutator.h` are not part of the sources; the constants and
collaborator contracts they declare are modelled from the specification and
marked as such below.
-/

/-- Modelled from the spec: `netstack/error.h` is missing from the sources.
The spec's error table gives distinct codes with `NONE` meaning success;
`netstack_tcp_pack` tests its collaborator's code against 0, so success is 0
and the two failure codes are distinct nonzero values. -/
def NETSTACK_ERROR_NONE : Int := 0

/-- Modelled from the spec: `netstack/error.h` is missing from the sources.
Code returned when a setter or the field parser rejects its input. -/
def NETSTACK_ERROR_BAD_FIELD : Int := 2

/-- Modelled from the spec: `netstack/error.h` is missing from the sources.
Code returned when fewer than 20 bytes are available to unpack. -/
def NETSTACK_ERROR_MISSING_DATA : Int := 3

/-- Modelled from the spec: `netstack/tcp.h` is missing from the sources.
The spec describes `control_bits` as a bitmask over the 9 flags
{NS, CWR, ECE, URG, ACK, PSH, RST, SYN, FIN}, so each flag constant is a
distinct single bit. -/
def NETSTACK_TCP_FIN : Nat := 0x001

/-- Modelled from the spec: single-bit SYN flag of the control-bit mask. -/
def NETSTACK_TCP_SYN : Nat := 0x002

/-- Modelled from the spec: single-bit RST flag of the control-bit mask. -/
def NETSTACK_TCP_RST : Nat := 0x004

/-- Modelled from the spec: single-bit PSH flag of the control-bit mask. -/
def NETSTACK_TCP_PSH : Nat := 0x008

/-- Modelled from the spec: single-bit ACK flag of the control-bit mask. -/
def NETSTACK_TCP_ACK : Nat := 0x010

/-- Modelled from the spec: single-bit URG flag of the control-bit mask. -/
def NETSTACK_TCP_URG : Nat := 0x020

/-- Modelled from the spec: single-bit ECE flag of the control-bit mask. -/
def NETSTACK_TCP_ECE : Nat := 0x040

/-- Modelled from the spec: single-bit CWR flag of the control-bit mask. -/
def NETSTACK_TCP_CWR : Nat := 0x080

/-- Modelled from the spec: single-bit NS flag of the control-bit mask. -/
def NETSTACK_TCP_NS : Nat := 0x100

/-- The header value object `struct netstack_tcp` of `netstack/tcp.h`, as
used by `src/tcp.c`: all fields are unsigned C integers, embedded as `Nat`. -/
@[ext]
structure netstack_tcp where
  source : Nat
  destination : Nat
  sequence : Nat
  acknowledgment : Nat
  data_offset : Nat
  control_bits : Nat
  window_size : Nat
  checksum : Nat
  urgent_pointer : Nat
  deriving DecidableEq

/-- The buffer object of `netstack/buffer.h` as read by `src/tcp.c`:
a byte region `data` and a `size` field, both accessed directly. -/
structure netstack_buffer where
  data : List Nat
  size : Nat
  deriving DecidableEq

/-- Reading `((unsigned char *) data)[i]`: a byte of the region, reduced
modulo 256 because the C pointer has type `unsigned char *`.  Reading past
the end of the region is undefined in C; the embedding returns 0 there and
every theorem stays within bounds. -/
def buffer_byte (data : List Nat) (i : Nat) : Nat :=
  data.getD i 0 % 256

/-- Modelled from the spec: `netstack_buffer_shift` of the missing
`netstack/buffer.h` grows the region by `n` bytes inserted at the front,
preserving the existing bytes after them, and reports success. -/
def netstack_buffer_shift (buffer : netstack_buffer) (n : Nat) :
    Int × netstack_buffer :=
  (NETSTACK_ERROR_NONE,
   { data := List.replicate n 0 ++ buffer.data, size := buffer.size + n })

/-- Modelled from the spec: `netstack/mutator.h` is missing from the sources.
A mutator is a context value together with an optional callback
`(context, header) -> error code`; an absent callback is a valid no-op
state (the C `mutate_tcp` function pointer being `NULL`). -/
structure netstack_mutator (α : Type) where
  data : α
  mutate_tcp : Option (α → netstack_tcp → Int × netstack_tcp)

/-- The digit-accumulation loop of `parse_port` (`src/tcp.c` lines 35-45):
consume `n` characters, multiplying the accumulator by 10 and adding each
digit, failing at the first non-digit.  Running out of characters before
`n` are consumed is an out-of-bounds read in C; the embedding fails there
and every theorem supplies enough characters. -/
def parse_digits : List Char → Nat → Nat → Option Nat
  | _, 0, port => some port
  | [], _ + 1, _ => none
  | c :: rest, n + 1, port =>
      if ('0' ≤ c) ∧ (c ≤ '9') then
        parse_digits rest n (port * 10 + (c.toNat - '0'.toNat))
      else
        none

/-- `parse_port` of `src/tcp.c` lines 15-54: clamp the length to 5, run the
digit loop, reject accumulated values above 65535, and write the result
only on success (`port0` is the value behind `port_ptr`, returned unchanged
on failure). -/
def parse_port (port0 : Nat) (str : List Char) (str_size : Nat) : Int × Nat :=
  let sz := if str_size > 5 then 5 else str_size
  match parse_digits str sz 0 with
  | none => (NETSTACK_ERROR_BAD_FIELD, port0)
  | some port =>
      if port > 65535 then (NETSTACK_ERROR_BAD_FIELD, port0)
      else (NETSTACK_ERROR_NONE, port)

/-- `netstack_tcp_init` of `src/tcp.c` lines 56-67. -/
def netstack_tcp_init : netstack_tcp :=
  { source := 0
    destination := 0
    sequence := 0
    acknowledgment := 0
    data_offset := 5
    control_bits := 0
    window_size := 1
    checksum := 0
    urgent_pointer := 0 }

/-- `netstack_tcp_set_source` of `src/tcp.c` lines 69-74. -/
def netstack_tcp_set_source (tcp : netstack_tcp) (str : List Char)
    (str_size : Nat) : Int × netstack_tcp :=
  let r := parse_port tcp.source str str_size
  (r.1, { tcp with source := r.2 })

/-- `netstack_tcp_set_destination` of `src/tcp.c` lines 76-81. -/
def netstack_tcp_set_destination (tcp : netstack_tcp) (str : List Char)
    (str_size : Nat) : Int × netstack_tcp :=
  let r := parse_port tcp.destination str str_size
  (r.1, { tcp with destination := r.2 })

/-- `netstack_tcp_mutate` of `src/tcp.c` lines 83-90. -/
def netstack_tcp_mutate {α : Type} (tcp : netstack_tcp)
    (mutator : netstack_mutator α) : Int × netstack_tcp :=
  match mutator.mutate_tcp with
  | none => (NETSTACK_ERROR_NONE, tcp)
  | some f => f mutator.data tcp

/-- Byte 12 as written by `netstack_tcp_pack` (`src/tcp.c` lines 118-124):
first zeroed, then assigned `5 << 4`, then or-ed with 1 when NS is set. -/
def tcp_pack_byte12 (cb : Nat) : Nat :=
  let h := 5 <<< 4
  if cb &&& NETSTACK_TCP_NS ≠ 0 then h ||| 0x01 else h

/-- Byte 13 as written by `netstack_tcp_pack` (`src/tcp.c` lines 119-140):
zeroed, then or-ed with one mask per set control flag. -/
def tcp_pack_byte13 (cb : Nat) : Nat :=
  let h : Nat := 0
  let h := if cb &&& NETSTACK_TCP_CWR ≠ 0 then h ||| 0x80 else h
  let h := if cb &&& NETSTACK_TCP_ECE ≠ 0 then h ||| 0x40 else h
  let h := if cb &&& NETSTACK_TCP_URG ≠ 0 then h ||| 0x20 else h
  let h := if cb &&& NETSTACK_TCP_ACK ≠ 0 then h ||| 0x10 else h
  let h := if cb &&& NETSTACK_TCP_PSH ≠ 0 then h ||| 0x08 else h
  let h := if cb &&& NETSTACK_TCP_RST ≠ 0 then h ||| 0x04 else h
  let h := if cb &&& NETSTACK_TCP_SYN ≠ 0 then h ||| 0x02 else h
  let h := if cb &&& NETSTACK_TCP_FIN ≠ 0 then h ||| 0x01 else h
  h

/-- The 20 header bytes written by `netstack_tcp_pack` (`src/tcp.c` lines
101-149), one list entry per `header[i]` assignment, with the exact mask
and shift expressions of the source. -/
def tcp_pack_bytes (tcp : netstack_tcp) : List Nat :=
  [ (0xff00 &&& tcp.source) >>> 8
  , (0x00ff &&& tcp.source) >>> 0
  , (0xff00 &&& tcp.destination) >>> 8
  , (0x00ff &&& tcp.destination) >>> 0
  , (0xff000000 &&& tcp.sequence) >>> 24
  , (0x00ff0000 &&& tcp.sequence) >>> 16
  , (0x0000ff00 &&& tcp.sequence) >>> 8
  , (0x000000ff &&& tcp.sequence) >>> 0
  , (0xff000000 &&& tcp.acknowledgment) >>> 24
  , (0x00ff0000 &&& tcp.acknowledgment) >>> 16
  , (0x0000ff00 &&& tcp.acknowledgment) >>> 8
  , (0x000000ff &&& tcp.acknowledgment) >>> 0
  , tcp_pack_byte12 tcp.control_bits
  , tcp_pack_byte13 tcp.control_bits
  , (tcp.window_size &&& 0xff00) >>> 8
  , (tcp.window_size &&& 0x00ff) >>> 0
  , 0
  , 0
  , (tcp.urgent_pointer &&& 0xff00) >>> 8
  , (tcp.urgent_pointer &&& 0x00ff) >>> 0 ]

/-- `netstack_tcp_pack` of `src/tcp.c` lines 92-152.  The buffer's shift
operation is an external collaborator, so it is a parameter; a nonzero code
from it is returned as-is, otherwise the 20 front bytes of the shifted
region are overwritten with the header bytes. -/
def netstack_tcp_pack (shift : netstack_buffer → Nat → Int × netstack_buffer)
    (tcp : netstack_tcp) (buffer : netstack_buffer) :
    Int × netstack_buffer :=
  let r := shift buffer 20
  if r.1 ≠ 0 then r
  else
    (NETSTACK_ERROR_NONE,
     { data := tcp_pack_bytes tcp ++ r.2.data.drop 20, size := r.2.size })

/-- The control-bit reconstruction of `netstack_tcp_unpack` (`src/tcp.c`
lines 184-203): the mask is zeroed, then each flag is or-ed in when its
fixed wire bit is set in byte 12 or byte 13. -/
def tcp_unpack_control_bits (h12 h13 : Nat) : Nat :=
  let cb : Nat := 0
  let cb := if h12 &&& 0x01 ≠ 0 then cb ||| NETSTACK_TCP_NS else cb
  let cb := if h13 &&& 0x80 ≠ 0 then cb ||| NETSTACK_TCP_CWR else cb
  let cb := if h13 &&& 0x40 ≠ 0 then cb ||| NETSTACK_TCP_ECE else cb
  let cb := if h13 &&& 0x20 ≠ 0 then cb ||| NETSTACK_TCP_URG else cb
  let cb := if h13 &&& 0x10 ≠ 0 then cb ||| NETSTACK_TCP_ACK else cb
  let cb := if h13 &&& 0x08 ≠ 0 then cb ||| NETSTACK_TCP_PSH else cb
  let cb := if h13 &&& 0x04 ≠ 0 then cb ||| NETSTACK_TCP_RST else cb
  let cb := if h13 &&& 0x02 ≠ 0 then cb ||| NETSTACK_TCP_SYN else cb
  let cb := if h13 &&& 0x01 ≠ 0 then cb ||| NETSTACK_TCP_FIN else cb
  cb

/-- `netstack_tcp_unpack` of `src/tcp.c` lines 154-218: fail with
MISSING_DATA below 20 available bytes, otherwise rebuild every field from
the front 20 bytes (each field is zeroed and then or-ed together from
shifted bytes, exactly as in the source). -/
def netstack_tcp_unpack (tcp : netstack_tcp) (buffer : netstack_buffer) :
    Int × netstack_tcp :=
  if buffer.size < 20 then (NETSTACK_ERROR_MISSING_DATA, tcp)
  else
    let hd := buffer_byte buffer.data
    (NETSTACK_ERROR_NONE,
     { source := (0 ||| (hd 0 <<< 8)) ||| (hd 1 <<< 0)
       destination := (0 ||| (hd 2 <<< 8)) ||| (hd 3 <<< 0)
       sequence :=
         (((0 ||| (hd 4 <<< 24)) ||| (hd 5 <<< 16)) ||| (hd 6 <<< 8)) |||
           (hd 7 <<< 0)
       acknowledgment :=
         (((0 ||| (hd 8 <<< 24)) ||| (hd 9 <<< 16)) ||| (hd 10 <<< 8)) |||
           (hd 11 <<< 0)
       data_offset := hd 12 >>> 4
       control_bits := tcp_unpack_control_bits (hd 12) (hd 13)
       window_size := (0 ||| (hd 14 <<< 8)) ||| (hd 15 <<< 0)
       checksum := (0 ||| (hd 16 <<< 8)) ||| (hd 17 <<< 0)
       urgent_pointer := (0 ||| (hd 18 <<< 8)) ||| (hd 19 <<< 0) })

/-- Decimal value of a digit string, the specification-side meaning of a
port literal. -/
def decimal_value (cs : List Char) : Nat :=
  cs.foldl (fun a c => a * 10 + (c.toNat - '0'.toNat)) 0

/-- The field-width invariants of the spec's data-model table (§3): 16-bit
ports, window, checksum and urgent pointer; 32-bit sequence and
acknowledgment numbers; 4-bit data offset; control bits drawn only from
the 9 defined flags. -/
def header_fields_valid (t : netstack_tcp) : Prop :=
  t.source ≤ 65535 ∧ t.destination ≤ 65535 ∧
  t.sequence ≤ 4294967295 ∧ t.acknowledgment ≤ 4294967295 ∧
  t.data_offset ≤ 15 ∧
  t.control_bits &&&
    (NETSTACK_TCP_NS ||| NETSTACK_TCP_CWR ||| NETSTACK_TCP_ECE |||
     NETSTACK_TCP_URG ||| NETSTACK_TCP_ACK ||| NETSTACK_TCP_PSH |||
     NETSTACK_TCP_RST ||| NETSTACK_TCP_SYN ||| NETSTACK_TCP_FIN) =
    t.control_bits ∧
  t.window_size ≤ 65535 ∧ t.checksum ≤ 65535 ∧ t.urgent_pointer ≤ 65535

set_option maxRecDepth 4096 in
/-- Packing and then unpacking the control-bit mask is the identity on all
512 flag combinations, the packed byte 12 always has high nibble 5, and
byte 13 is already a byte. -/
theorem control_bits_roundtrip_all : ∀ cb < 512,
    tcp_unpack_control_bits (tcp_pack_byte12 cb % 256) (tcp_pack_byte13 cb % 256) = cb ∧
    (tcp_pack_byte12 cb % 256) >>> 4 = 5 ∧
    tcp_pack_byte13 cb % 256 = tcp_pack_byte13 cb := by decide

/-- Helper: or-ing a sub-512 flag into a sub-512 accumulator under a guard
stays below 512. -/
theorem step_lt {c : Prop} [Decidable c] {x f : Nat} (hx : x < 512)
    (hf : f < 512) : (if c then x ||| f else x) < 512 := by
  split
  · rw [show (512 : Nat) = 2 ^ 9 from rfl] at hx hf ⊢
    exact Nat.or_lt_two_pow hx hf
  · exact hx

/-- The reconstructed control-bit mask uses only the 9 flag bits. -/
theorem tcp_unpack_control_bits_lt (h12 h13 : Nat) :
    tcp_unpack_control_bits h12 h13 < 512 :=
  step_lt (step_lt (step_lt (step_lt (step_lt (step_lt (step_lt (step_lt
    (step_lt (by decide) (by decide)) (by decide)) (by decide)) (by decide))
    (by decide)) (by decide)) (by decide)) (by decide)) (by decide)

/-- Extracting a byte field with mask-then-shift equals divide-then-mod. -/
theorem mask_shift_extract (s k n : Nat) :
    (((2 ^ n - 1) <<< k) &&& s) >>> k = s / 2 ^ k % 2 ^ n := by
  apply Nat.eq_of_testBit_eq
  intro i
  rw [← Nat.shiftRight_eq_div_pow]
  simp only [Nat.testBit_shiftRight, Nat.testBit_and, Nat.testBit_shiftLeft,
    Nat.testBit_mod_two_pow, Nat.testBit_two_pow_sub_one, Nat.add_sub_cancel_left,
    Nat.le_add_right, decide_True, Bool.true_and]

/-- Bitwise or is addition when the operands occupy disjoint bit ranges. -/
theorem or_eq_add_of_lt {a b : Nat} (i : Nat) (ha : 2 ^ i ∣ a) (hb : b < 2 ^ i) :
    a ||| b = a + b := by
  obtain ⟨c, rfl⟩ := ha
  rw [← Nat.mul_add_lt_is_or hb c]

theorem extract_hi16 (s : Nat) : (0xff00 &&& s) >>> 8 = s / 256 % 256 := by
  have h := mask_shift_extract s 8 8
  norm_num [Nat.shiftLeft_eq] at h
  exact h

theorem extract_lo (s : Nat) : (0x00ff &&& s) >>> 0 = s % 256 := by
  have h := mask_shift_extract s 0 8
  norm_num [Nat.shiftLeft_eq] at h
  exact h

theorem extract_b24 (s : Nat) :
    (0xff000000 &&& s) >>> 24 = s / 16777216 % 256 := by
  have h := mask_shift_extract s 24 8
  norm_num [Nat.shiftLeft_eq] at h
  exact h

theorem extract_b16 (s : Nat) :
    (0x00ff0000 &&& s) >>> 16 = s / 65536 % 256 := by
  have h := mask_shift_extract s 16 8
  norm_num [Nat.shiftLeft_eq] at h
  exact h

theorem recompose2 {b0 b1 : Nat} (h1 : b1 < 256) :
    (0 ||| (b0 <<< 8)) ||| (b1 <<< 0) = 256 * b0 + b1 := by
  rw [Nat.zero_or, Nat.shiftLeft_zero, Nat.shiftLeft_eq]
  have e : b0 * 2 ^ 8 ||| b1 = b0 * 2 ^ 8 + b1 :=
    or_eq_add_of_lt 8 ⟨b0, by ring⟩ (by omega)
  rw [e]; ring

theorem recompose4 {b24 b16 b8 b0 : Nat} (h16 : b16 < 256) (h8 : b8 < 256)
    (h0 : b0 < 256) :
    (((0 ||| (b24 <<< 24)) ||| (b16 <<< 16)) ||| (b8 <<< 8)) ||| (b0 <<< 0) =
      16777216 * b24 + 65536 * b16 + 256 * b8 + b0 := by
  rw [Nat.zero_or, Nat.shiftLeft_zero, Nat.shiftLeft_eq, Nat.shiftLeft_eq,
    Nat.shiftLeft_eq]
  have e1 : b24 * 2 ^ 24 ||| b16 * 2 ^ 16 = b24 * 2 ^ 24 + b16 * 2 ^ 16 :=
    or_eq_add_of_lt 24 ⟨b24, by ring⟩ (by omega)
  have e2 : b24 * 2 ^ 24 + b16 * 2 ^ 16 ||| b8 * 2 ^ 8 =
      b24 * 2 ^ 24 + b16 * 2 ^ 16 + b8 * 2 ^ 8 :=
    or_eq_add_of_lt 16 ⟨256 * b24 + b16, by ring⟩ (by omega)
  have e3 : b24 * 2 ^ 24 + b16 * 2 ^ 16 + b8 * 2 ^ 8 ||| b0 =
      b24 * 2 ^ 24 + b16 * 2 ^ 16 + b8 * 2 ^ 8 + b0 :=
    or_eq_add_of_lt 8 ⟨65536 * b24 + 256 * b16 + b8, by ring⟩ h0
  rw [e1, e2, e3]; ring

theorem u16_roundtrip (s : Nat) (h : s ≤ 65535) :
    (0 ||| ((((0xff00 &&& s) >>> 8) % 256) <<< 8)) |||
      ((((0x00ff &&& s) >>> 0) % 256) <<< 0) = s := by
  rw [extract_hi16, extract_lo, recompose2 (by omega)]
  omega

theorem u16_roundtrip_swapped (s : Nat) (h : s ≤ 65535) :
    (0 ||| ((((s &&& 0xff00) >>> 8) % 256) <<< 8)) |||
      ((((s &&& 0x00ff) >>> 0) % 256) <<< 0) = s := by
  rw [Nat.and_comm s 0xff00, Nat.and_comm s 0x00ff]
  exact u16_roundtrip s h

theorem u32_roundtrip (s : Nat) (h : s ≤ 4294967295) :
    (((0 ||| ((((0xff000000 &&& s) >>> 24) % 256) <<< 24)) |||
      ((((0x00ff0000 &&& s) >>> 16) % 256) <<< 16)) |||
      ((((0x0000ff00 &&& s) >>> 8) % 256) <<< 8)) |||
      ((((0x000000ff &&& s) >>> 0) % 256) <<< 0) = s := by
  rw [extract_b24, extract_b16, extract_hi16, extract_lo,
    recompose4 (by omega) (by omega) (by omega)]
  omega

/-- C1: packing a Header whose fields respect the data-model widths with
`netstack_tcp_pack` and unpacking the resulting buffer with
`netstack_tcp_unpack` succeeds and reproduces the source, destination,
sequence, acknowledgment, window_size, urgent_pointer and control_bits
fields (any combination of the 9 flags), while the resulting data_offset
is 5 and checksum is 0 regardless of the input's values. -/
theorem tcp_pack_unpack_roundtrip (tcp tcp0 : netstack_tcp)
    (buffer : netstack_buffer)
    (hsrc : tcp.source ≤ 65535) (hdst : tcp.destination ≤ 65535)
    (hseq : tcp.sequence ≤ 4294967295)
    (hack : tcp.acknowledgment ≤ 4294967295)
    (hwin : tcp.window_size ≤ 65535) (hurg : tcp.urgent_pointer ≤ 65535)
    (hcb : tcp.control_bits &&&
      (NETSTACK_TCP_NS ||| NETSTACK_TCP_CWR ||| NETSTACK_TCP_ECE |||
       NETSTACK_TCP_URG ||| NETSTACK_TCP_ACK ||| NETSTACK_TCP_PSH |||
       NETSTACK_TCP_RST ||| NETSTACK_TCP_SYN ||| NETSTACK_TCP_FIN) =
      tcp.control_bits) :
    (netstack_tcp_pack netstack_buffer_shift tcp buffer).1 =
      NETSTACK_ERROR_NONE ∧
    (netstack_tcp_unpack tcp0
      (netstack_tcp_pack netstack_buffer_shift tcp buffer).2).1 =
      NETSTACK_ERROR_NONE ∧
    (netstack_tcp_unpack tcp0
      (netstack_tcp_pack netstack_buffer_shift tcp buffer).2).2 =
      { source := tcp.source, destination := tcp.destination,
        sequence := tcp.sequence, acknowledgment := tcp.acknowledgment,
        data_offset := 5, control_bits := tcp.control_bits,
        window_size := tcp.window_size, checksum := 0,
        urgent_pointer := tcp.urgent_pointer } := by
  have hcb' : tcp.control_bits < 512 := by
    have hm : (NETSTACK_TCP_NS ||| NETSTACK_TCP_CWR ||| NETSTACK_TCP_ECE |||
        NETSTACK_TCP_URG ||| NETSTACK_TCP_ACK ||| NETSTACK_TCP_PSH |||
        NETSTACK_TCP_RST ||| NETSTACK_TCP_SYN ||| NETSTACK_TCP_FIN) = 511 := by
      decide
    rw [hm] at hcb
    have h2 := Nat.and_pow_two_sub_one_eq_mod tcp.control_bits 9
    norm_num at h2
    rw [h2] at hcb
    omega
  have hpack : netstack_tcp_pack netstack_buffer_shift tcp buffer =
      (NETSTACK_ERROR_NONE,
       { data := tcp_pack_bytes tcp ++ buffer.data,
         size := buffer.size + 20 }) := rfl
  have hsize : ¬(buffer.size + 20 < 20) := by omega
  have hu : netstack_tcp_unpack tcp0
      { data := tcp_pack_bytes tcp ++ buffer.data,
        size := buffer.size + 20 } =
      (NETSTACK_ERROR_NONE,
       { source := (0 ||| ((((0xff00 &&& tcp.source) >>> 8) % 256) <<< 8)) |||
           ((((0x00ff &&& tcp.source) >>> 0) % 256) <<< 0)
         destination :=
           (0 ||| ((((0xff00 &&& tcp.destination) >>> 8) % 256) <<< 8)) |||
             ((((0x00ff &&& tcp.destination) >>> 0) % 256) <<< 0)
         sequence :=
           (((0 ||| ((((0xff000000 &&& tcp.sequence) >>> 24) % 256) <<< 24)) |||
             ((((0x00ff0000 &&& tcp.sequence) >>> 16) % 256) <<< 16)) |||
             ((((0x0000ff00 &&& tcp.sequence) >>> 8) % 256) <<< 8)) |||
             ((((0x000000ff &&& tcp.sequence) >>> 0) % 256) <<< 0)
         acknowledgment :=
           (((0 ||| ((((0xff000000 &&& tcp.acknowledgment) >>> 24) % 256) <<< 24)) |||
             ((((0x00ff0000 &&& tcp.acknowledgment) >>> 16) % 256) <<< 16)) |||
             ((((0x0000ff00 &&& tcp.acknowledgment) >>> 8) % 256) <<< 8)) |||
             ((((0x000000ff &&& tcp.acknowledgment) >>> 0) % 256) <<< 0)
         data_offset := (tcp_pack_byte12 tcp.control_bits % 256) >>> 4
         control_bits :=
           tcp_unpack_control_bits (tcp_pack_byte12 tcp.control_bits % 256)
             (tcp_pack_byte13 tcp.control_bits % 256)
         window_size :=
           (0 ||| ((((tcp.window_size &&& 0xff00) >>> 8) % 256) <<< 8)) |||
             ((((tcp.window_size &&& 0x00ff) >>> 0) % 256) <<< 0)
         checksum := (0 ||| ((0 % 256) <<< 8)) ||| ((0 % 256) <<< 0)
         urgent_pointer :=
           (0 ||| ((((tcp.urgent_pointer &&& 0xff00) >>> 8) % 256) <<< 8)) |||
             ((((tcp.urgent_pointer &&& 0x00ff) >>> 0) % 256) <<< 0) }) := by
    unfold netstack_tcp_unpack
    rw [if_neg hsize]
    rfl
  refine ⟨by rw [hpack], ?_, ?_⟩
  · rw [hpack]
    simp only [hu]
  · rw [hpack]
    simp only [hu]
    have hc := control_bits_roundtrip_all tcp.control_bits hcb'
    refine netstack_tcp.ext ?_ ?_ ?_ ?_ ?_ ?_ ?_ ?_ ?_
    · exact u16_roundtrip tcp.source hsrc
    · exact u16_roundtrip tcp.destination hdst
    · exact u32_roundtrip tcp.sequence hseq
    · exact u32_roundtrip tcp.acknowledgment hack
    · exact hc.2.1
    · exact hc.1
    · exact u16_roundtrip_swapped tcp.window_size hwin
    · rfl
    · exact u16_roundtrip_swapped tcp.urgent_pointer hurg

/-- C2: packing the Header {source 80, destination 443, sequence 1,
acknowledgment 0, SYN, window 1, checksum 0, urgent 0} succeeds and places
exactly the bytes 00 50 01 BB 00 00 00 01 00 00 00 00 50 02 00 01 00 00 00
00 at the front of the buffer. -/
theorem tcp_pack_byte_exact :
    (netstack_tcp_pack netstack_buffer_shift
      { source := 80, destination := 443, sequence := 1, acknowledgment := 0,
        data_offset := 5, control_bits := NETSTACK_TCP_SYN, window_size := 1,
        checksum := 0, urgent_pointer := 0 }
      { data := [], size := 0 }).1 = NETSTACK_ERROR_NONE ∧
    (netstack_tcp_pack netstack_buffer_shift
      { source := 80, destination := 443, sequence := 1, acknowledgment := 0,
        data_offset := 5, control_bits := NETSTACK_TCP_SYN, window_size := 1,
        checksum := 0, urgent_pointer := 0 }
      { data := [], size := 0 }).2.data.take 20 =
    [0x00, 0x50, 0x01, 0xBB, 0x00, 0x00, 0x00, 0x01, 0x00, 0x00, 0x00, 0x00,
     0x50, 0x02, 0x00, 0x01, 0x00, 0x00, 0x00, 0x00] := by
  decide

/-- C3: whatever the Header's data_offset and checksum fields hold, and
whatever successful shift the buffer provides, `netstack_tcp_pack` writes 5
into the high nibble of byte 12, the NS flag into its low bit, and zero
into bytes 16 and 17. -/
theorem tcp_pack_forces_offset_and_checksum
    (shift : netstack_buffer → Nat → Int × netstack_buffer)
    (tcp : netstack_tcp) (buffer : netstack_buffer)
    (hok : (shift buffer 20).1 = 0) :
    (netstack_tcp_pack shift tcp buffer).2.data.getD 12 0 >>> 4 = 5 ∧
    (netstack_tcp_pack shift tcp buffer).2.data.getD 12 0 &&& 0x01 =
      (if tcp.control_bits &&& NETSTACK_TCP_NS ≠ 0 then 1 else 0) ∧
    (netstack_tcp_pack shift tcp buffer).2.data.getD 16 0 = 0 ∧
    (netstack_tcp_pack shift tcp buffer).2.data.getD 17 0 = 0 := by
  have hp : netstack_tcp_pack shift tcp buffer =
      (NETSTACK_ERROR_NONE,
       { data := tcp_pack_bytes tcp ++ (shift buffer 20).2.data.drop 20,
         size := (shift buffer 20).2.size }) := by
    unfold netstack_tcp_pack
    simp [hok]
  rw [hp]
  refine ⟨?_, ?_, rfl, rfl⟩
  · show tcp_pack_byte12 tcp.control_bits >>> 4 = 5
    unfold tcp_pack_byte12
    split <;> decide
  · show tcp_pack_byte12 tcp.control_bits &&& 0x01 =
      (if tcp.control_bits &&& NETSTACK_TCP_NS ≠ 0 then 1 else 0)
    unfold tcp_pack_byte12
    by_cases h : tcp.control_bits &&& NETSTACK_TCP_NS ≠ 0
    · rw [if_pos h, if_pos h]
      decide
    · rw [if_neg h, if_neg h]
      decide

/-- C7: `netstack_tcp_unpack` fails with MISSING_DATA and leaves the target
Header untouched whenever fewer than 20 bytes are available, and succeeds
with NONE whenever at least 20 bytes are available. -/
theorem tcp_unpack_length_check (tcp : netstack_tcp)
    (buffer : netstack_buffer) :
    (buffer.size < 20 →
      netstack_tcp_unpack tcp buffer = (NETSTACK_ERROR_MISSING_DATA, tcp)) ∧
    (20 ≤ buffer.size →
      (netstack_tcp_unpack tcp buffer).1 = NETSTACK_ERROR_NONE) := by
  constructor
  · intro h
    unfold netstack_tcp_unpack
    rw [if_pos h]
  · intro h
    unfold netstack_tcp_unpack
    rw [if_neg (by omega)]

/-- C8: `netstack_tcp_mutate` with an absent callback returns NONE and the
unchanged Header; with a registered callback it returns exactly the
callback's result, uninterpreted. -/
theorem tcp_mutate_callback {α : Type} (tcp : netstack_tcp)
    (mutator : netstack_mutator α) :
    (mutator.mutate_tcp = none →
      netstack_tcp_mutate tcp mutator = (NETSTACK_ERROR_NONE, tcp)) ∧
    (∀ f, mutator.mutate_tcp = some f →
      netstack_tcp_mutate tcp mutator = f mutator.data tcp) := by
  constructor
  · intro h
    unfold netstack_tcp_mutate
    rw [h]
  · intro f h
    unfold netstack_tcp_mutate
    rw [h]

/-- C9: when the 20-byte front shift fails in place with a nonzero code,
`netstack_tcp_pack` returns that code with the buffer bytes unwritten and
the Header untouched; when the shift succeeds, pack returns NONE. -/
theorem tcp_pack_shift_failure
    (shift : netstack_buffer → Nat → Int × netstack_buffer)
    (tcp : netstack_tcp) (buffer : netstack_buffer) :
    (∀ e : Int, e ≠ 0 → shift buffer 20 = (e, buffer) →
      netstack_tcp_pack shift tcp buffer = (e, buffer)) ∧
    ((shift buffer 20).1 = 0 →
      (netstack_tcp_pack shift tcp buffer).1 = NETSTACK_ERROR_NONE) := by
  constructor
  · intro e he hs
    unfold netstack_tcp_pack
    rw [hs]
    simp [he]
  · intro h
    unfold netstack_tcp_pack
    simp [h]

/-- Helper: the digit loop only inspects the first `n` characters. -/
theorem parse_digits_take (cs : List Char) (n acc : Nat) :
    parse_digits cs n acc = parse_digits (cs.take n) n acc := by
  induction cs generalizing n acc with
  | nil => simp
  | cons c rest ih =>
    cases n with
    | zero => rfl
    | succ m =>
      simp only [List.take_succ_cons, parse_digits]
      by_cases hc : ('0' ≤ c) ∧ (c ≤ '9')
      · rw [if_pos hc, if_pos hc, ih]
      · rw [if_neg hc, if_neg hc]

/-- Helper: the digit loop fails exactly when a non-digit occurs among the
first `n` characters. -/
theorem parse_digits_none_iff (cs : List Char) (n acc : Nat)
    (h : n ≤ cs.length) :
    parse_digits cs n acc = none ↔
      ∃ i, i < n ∧ ¬(('0' ≤ cs.getD i ' ') ∧ (cs.getD i ' ' ≤ '9')) := by
  induction cs generalizing n acc with
  | nil =>
    have hn : n = 0 := by simpa using h
    subst hn
    simp [parse_digits]
  | cons c rest ih =>
    cases n with
    | zero => simp [parse_digits]
    | succ m =>
      by_cases hc : ('0' ≤ c) ∧ (c ≤ '9')
      · rw [show parse_digits (c :: rest) (m + 1) acc =
            parse_digits rest m (acc * 10 + (c.toNat - '0'.toNat)) from by
          simp [parse_digits, hc]]
        rw [ih m _ (by simpa using h)]
        constructor
        · rintro ⟨i, hi, hnd⟩
          exact ⟨i + 1, by omega, hnd⟩
        · rintro ⟨i, hi, hnd⟩
          cases i with
          | zero => exact absurd hc hnd
          | succ j => exact ⟨j, by omega, hnd⟩
      · simp only [parse_digits, if_neg hc]
        constructor
        · intro _
          exact ⟨0, by omega, hc⟩
        · intro _
          trivial

/-- Helper: on all-digit prefixes the digit loop folds the decimal value. -/
theorem parse_digits_some_val (cs : List Char) (n acc : Nat)
    (h : n ≤ cs.length)
    (hd : ∀ i, i < n → (('0' ≤ cs.getD i ' ') ∧ (cs.getD i ' ' ≤ '9'))) :
    parse_digits cs n acc =
      some ((cs.take n).foldl
        (fun a c => a * 10 + (c.toNat - '0'.toNat)) acc) := by
  induction cs generalizing n acc with
  | nil =>
    have hn : n = 0 := by simpa using h
    subst hn
    rfl
  | cons c rest ih =>
    cases n with
    | zero => rfl
    | succ m =>
      have hc : ('0' ≤ c) ∧ (c ≤ '9') := hd 0 (by omega)
      simp only [parse_digits, if_pos hc, List.take_succ_cons, List.foldl_cons]
      exact ih m _ (by simpa using h) (fun i hi => hd (i + 1) (by omega))

/-- C4: for a string of 1 to 5 decimal digits whose value is at most 65535,
`parse_port` — and hence both setters — succeeds with NONE and writes
exactly that decimal value. -/
theorem parse_port_valid (p0 : Nat) (tcp : netstack_tcp) (cs : List Char)
    (h1 : 1 ≤ cs.length) (h5 : cs.length ≤ 5)
    (hdig : ∀ c ∈ cs, ('0' ≤ c) ∧ (c ≤ '9'))
    (hv : decimal_value cs ≤ 65535) :
    parse_port p0 cs cs.length = (NETSTACK_ERROR_NONE, decimal_value cs) ∧
    netstack_tcp_set_source tcp cs cs.length =
      (NETSTACK_ERROR_NONE, { tcp with source := decimal_value cs }) ∧
    netstack_tcp_set_destination tcp cs cs.length =
      (NETSTACK_ERROR_NONE, { tcp with destination := decimal_value cs }) := by
  have hd : ∀ i, i < cs.length →
      (('0' ≤ cs.getD i ' ') ∧ (cs.getD i ' ' ≤ '9')) := by
    intro i hi
    rw [List.getD_eq_getElem cs ' ' hi]
    exact hdig _ (cs.getElem_mem hi)
  have hp : ∀ q : Nat, parse_port q cs cs.length =
      (NETSTACK_ERROR_NONE, decimal_value cs) := by
    intro q
    simp only [parse_port]
    rw [if_neg (by omega : ¬cs.length > 5),
      show parse_digits cs cs.length 0 = some (decimal_value cs) from by
        rw [parse_digits_some_val cs cs.length 0 le_rfl hd, List.take_length]
        rfl]
    dsimp only
    rw [if_neg (by omega : ¬decimal_value cs > 65535)]
  exact ⟨hp p0, by unfold netstack_tcp_set_source; rw [hp tcp.source],
    by unfold netstack_tcp_set_destination; rw [hp tcp.destination]⟩

/-- C5: `parse_port` fails with BAD_FIELD exactly when a non-digit occurs
among the first min(length, 5) characters or the accumulated value of the
consulted digits exceeds 65535; on failure the destination is unchanged,
and in every other case it returns NONE (so the setters behave likewise). -/
theorem parse_port_error_cases (p0 : Nat) (cs : List Char) (sz : Nat)
    (hsz : sz ≤ cs.length) :
    ((parse_port p0 cs sz).1 = NETSTACK_ERROR_BAD_FIELD ↔
      (∃ i, i < min sz 5 ∧
        ¬(('0' ≤ cs.getD i ' ') ∧ (cs.getD i ' ' ≤ '9'))) ∨
      ((∀ i, i < min sz 5 →
          (('0' ≤ cs.getD i ' ') ∧ (cs.getD i ' ' ≤ '9'))) ∧
        65535 < decimal_value (cs.take (min sz 5)))) ∧
    ((parse_port p0 cs sz).1 = NETSTACK_ERROR_BAD_FIELD →
      (parse_port p0 cs sz).2 = p0 ∧
      (∀ tcp : netstack_tcp, (netstack_tcp_set_source tcp cs sz).2 = tcp) ∧
      (∀ tcp : netstack_tcp,
        (netstack_tcp_set_destination tcp cs sz).2 = tcp)) ∧
    ((parse_port p0 cs sz).1 ≠ NETSTACK_ERROR_BAD_FIELD →
      (parse_port p0 cs sz).1 = NETSTACK_ERROR_NONE) := by
  have hmin : (if sz > 5 then 5 else sz) = min sz 5 := by
    split <;> omega
  have hminle : min sz 5 ≤ cs.length := by omega
  by_cases hnd : ∃ i, i < min sz 5 ∧
      ¬(('0' ≤ cs.getD i ' ') ∧ (cs.getD i ' ' ≤ '9'))
  · have hnone : parse_digits cs (min sz 5) 0 = none :=
      (parse_digits_none_iff cs (min sz 5) 0 hminle).mpr hnd
    have hpp : ∀ q : Nat, parse_port q cs sz =
        (NETSTACK_ERROR_BAD_FIELD, q) := by
      intro q
      simp only [parse_port]
      rw [hmin, hnone]
    refine ⟨?_, ?_, ?_⟩
    · rw [hpp p0]
      exact ⟨fun _ => Or.inl hnd, fun _ => rfl⟩
    · intro _
      refine ⟨by rw [hpp p0], ?_, ?_⟩
      · intro tcp
        unfold netstack_tcp_set_source
        rw [hpp tcp.source]
      · intro tcp
        unfold netstack_tcp_set_destination
        rw [hpp tcp.destination]
    · intro hne
      exact absurd (by rw [hpp p0]) hne
  · push_neg at hnd
    have hsome : parse_digits cs (min sz 5) 0 =
        some ((cs.take (min sz 5)).foldl
          (fun a c => a * 10 + (c.toNat - '0'.toNat)) 0) :=
      parse_digits_some_val cs (min sz 5) 0 hminle (fun i hi => hnd i hi)
    by_cases hv : decimal_value (cs.take (min sz 5)) > 65535
    · have hpp : ∀ q : Nat, parse_port q cs sz =
          (NETSTACK_ERROR_BAD_FIELD, q) := by
        intro q
        simp only [parse_port]
        rw [hmin, show parse_digits cs (min sz 5) 0 =
          some (decimal_value (cs.take (min sz 5))) from hsome]
        dsimp only
        rw [if_pos hv]
      refine ⟨?_, ?_, ?_⟩
      · rw [hpp p0]
        exact ⟨fun _ => Or.inr ⟨hnd, hv⟩, fun _ => rfl⟩
      · intro _
        refine ⟨by rw [hpp p0], ?_, ?_⟩
        · intro tcp
          unfold netstack_tcp_set_source
          rw [hpp tcp.source]
        · intro tcp
          unfold netstack_tcp_set_destination
          rw [hpp tcp.destination]
      · intro hne
        exact absurd (by rw [hpp p0]) hne
    · have hpp : parse_port p0 cs sz =
          (NETSTACK_ERROR_NONE, decimal_value (cs.take (min sz 5))) := by
        simp only [parse_port]
        rw [hmin, show parse_digits cs (min sz 5) 0 =
          some (decimal_value (cs.take (min sz 5))) from hsome]
        dsimp only
        rw [if_neg hv]
      rw [hpp]
      refine ⟨?_, ?_, fun _ => rfl⟩
      · constructor
        · intro h
          have hcontra : NETSTACK_ERROR_NONE = NETSTACK_ERROR_BAD_FIELD := h
          exact absurd hcontra (by decide)
        · rintro (⟨i, hi, hnd'⟩ | ⟨_, hv'⟩)
          · exact absurd (hnd i hi) hnd'
          · exact absurd hv' hv
      · intro h
        have hcontra : NETSTACK_ERROR_NONE = NETSTACK_ERROR_BAD_FIELD := h
        exact absurd hcontra (by decide)

/-- C6: `parse_port` consults at most 5 characters: when the size argument
exceeds 5 and the first five characters are digits of value at most 65535,
it succeeds with their value, and characters from position 5 on cannot
change the outcome. -/
theorem parse_port_clamp (p0 : Nat) (cs : List Char) (sz : Nat)
    (hsz : 5 < sz) (hlen : 5 ≤ cs.length)
    (hdig : ∀ i, i < 5 → (('0' ≤ cs.getD i ' ') ∧ (cs.getD i ' ' ≤ '9')))
    (hv : decimal_value (cs.take 5) ≤ 65535) :
    parse_port p0 cs sz = (NETSTACK_ERROR_NONE, decimal_value (cs.take 5)) ∧
    parse_port p0 cs sz = parse_port p0 (cs.take 5) 5 := by
  have h1 : parse_port p0 cs sz =
      (NETSTACK_ERROR_NONE, decimal_value (cs.take 5)) := by
    simp only [parse_port]
    rw [if_pos hsz, show parse_digits cs 5 0 =
      some (decimal_value (cs.take 5)) from parse_digits_some_val cs 5 0 hlen hdig]
    dsimp only
    rw [if_neg (by omega : ¬decimal_value (cs.take 5) > 65535)]
  refine ⟨h1, ?_⟩
  have h2 : parse_port p0 (cs.take 5) 5 =
      (NETSTACK_ERROR_NONE, decimal_value (cs.take 5)) := by
    simp only [parse_port]
    rw [if_neg (by omega : ¬(5 : Nat) > 5), ← parse_digits_take cs 5 0,
      show parse_digits cs 5 0 = some (decimal_value (cs.take 5)) from
        parse_digits_some_val cs 5 0 hlen hdig]
    dsimp only
    rw [if_neg (by omega : ¬decimal_value (cs.take 5) > 65535)]
  rw [h1, h2]

/-- Helper: a 16-bit quantity reassembled from two bytes is at most 65535. -/
theorem u16_bound {a b : Nat} (ha : a < 256) (hb : b < 256) :
    (0 ||| (a <<< 8)) ||| (b <<< 0) ≤ 65535 := by
  rw [recompose2 hb]
  omega

/-- Helper: a 32-bit quantity reassembled from four bytes is at most
4294967295. -/
theorem u32_bound {a b c d : Nat} (ha : a < 256) (hb : b < 256)
    (hc : c < 256) (hd : d < 256) :
    (((0 ||| (a <<< 24)) ||| (b <<< 16)) ||| (c <<< 8)) ||| (d <<< 0) ≤
      4294967295 := by
  rw [recompose4 hb hc hd]
  omega

/-- Helper: the high nibble of a byte is at most 15. -/
theorem nibble_bound {a : Nat} (h : a < 256) : a >>> 4 ≤ 15 := by
  rw [Nat.shiftRight_eq_div_pow]
  omega

/-- Helper: a value below 512 is fixed by masking with the 9 flag bits. -/
theorem and_flags_eq_of_lt {cb : Nat} (h : cb < 512) :
    cb &&& (NETSTACK_TCP_NS ||| NETSTACK_TCP_CWR ||| NETSTACK_TCP_ECE |||
      NETSTACK_TCP_URG ||| NETSTACK_TCP_ACK ||| NETSTACK_TCP_PSH |||
      NETSTACK_TCP_RST ||| NETSTACK_TCP_SYN ||| NETSTACK_TCP_FIN) = cb := by
  rw [show (NETSTACK_TCP_NS ||| NETSTACK_TCP_CWR ||| NETSTACK_TCP_ECE |||
      NETSTACK_TCP_URG ||| NETSTACK_TCP_ACK ||| NETSTACK_TCP_PSH |||
      NETSTACK_TCP_RST ||| NETSTACK_TCP_SYN ||| NETSTACK_TCP_FIN) = 511
    from by decide]
  have hm := Nat.and_pow_two_sub_one_eq_mod cb 9
  norm_num at hm
  rw [hm]
  omega

/-- Helper: a successful `parse_port` yields a value at most 65535. -/
theorem parse_port_success_le (q : Nat) (cs : List Char) (sz : Nat)
    (h : (parse_port q cs sz).1 = NETSTACK_ERROR_NONE) :
    (parse_port q cs sz).2 ≤ 65535 := by
  simp only [parse_port] at h ⊢
  cases hh : parse_digits cs (if sz > 5 then 5 else sz) 0 with
  | none =>
    rw [hh] at h
    have hcontra : NETSTACK_ERROR_BAD_FIELD = NETSTACK_ERROR_NONE := h
    exact absurd hcontra (by decide)
  | some v =>
    rw [hh] at h
    dsimp only at h ⊢
    by_cases hv : v > 65535
    · rw [if_pos hv] at h
      have hcontra : NETSTACK_ERROR_BAD_FIELD = NETSTACK_ERROR_NONE := h
      exact absurd hcontra (by decide)
    · rw [if_neg hv]
      dsimp only
      omega

/-- C10: every Header produced by `netstack_tcp_init` or a successful
`netstack_tcp_unpack`, and every valid Header updated by a successful
setter, satisfies the field-width invariants of the data model. -/
theorem tcp_header_invariants :
    header_fields_valid netstack_tcp_init ∧
    (∀ tcp buffer, 20 ≤ buffer.size →
      header_fields_valid (netstack_tcp_unpack tcp buffer).2) ∧
    (∀ tcp cs sz, header_fields_valid tcp →
      (netstack_tcp_set_source tcp cs sz).1 = NETSTACK_ERROR_NONE →
      header_fields_valid (netstack_tcp_set_source tcp cs sz).2) ∧
    (∀ tcp cs sz, header_fields_valid tcp →
      (netstack_tcp_set_destination tcp cs sz).1 = NETSTACK_ERROR_NONE →
      header_fields_valid (netstack_tcp_set_destination tcp cs sz).2) := by
  refine ⟨⟨by decide, by decide, by decide, by decide, by decide, by decide,
    by decide, by decide, by decide⟩, ?_, ?_, ?_⟩
  · intro tcp buffer h
    have hb : ∀ i, buffer_byte buffer.data i < 256 :=
      fun i => Nat.mod_lt _ (by norm_num)
    unfold netstack_tcp_unpack
    rw [if_neg (by omega)]
    refine ⟨?_, ?_, ?_, ?_, ?_, ?_, ?_, ?_, ?_⟩
    · exact u16_bound (hb 0) (hb 1)
    · exact u16_bound (hb 2) (hb 3)
    · exact u32_bound (hb 4) (hb 5) (hb 6) (hb 7)
    · exact u32_bound (hb 8) (hb 9) (hb 10) (hb 11)
    · exact nibble_bound (hb 12)
    · exact and_flags_eq_of_lt (tcp_unpack_control_bits_lt _ _)
    · exact u16_bound (hb 14) (hb 15)
    · exact u16_bound (hb 16) (hb 17)
    · exact u16_bound (hb 18) (hb 19)
  · intro tcp cs sz hvalid hsucc
    obtain ⟨h1, h2, h3, h4, h5, h6, h7, h8, h9⟩ := hvalid
    exact ⟨parse_port_success_le tcp.source cs sz hsucc,
      h2, h3, h4, h5, h6, h7, h8, h9⟩
  · intro tcp cs sz hvalid hsucc
    obtain ⟨h1, h2, h3, h4, h5, h6, h7, h8, h9⟩ := hvalid
    exact ⟨h1, parse_port_success_le tcp.destination cs sz hsucc,
      h3, h4, h5, h6, h7, h8, h9⟩

/-- Witness for C1: the round-trip law applied to a concrete header. -/
theorem tcp_pack_unpack_roundtrip_witness :
    (netstack_tcp_unpack netstack_tcp_init
      (netstack_tcp_pack netstack_buffer_shift
        { source := 80, destination := 443, sequence := 123456789,
          acknowledgment := 987654321, data_offset := 9,
          control_bits := NETSTACK_TCP_SYN ||| NETSTACK_TCP_ACK,
          window_size := 1234, checksum := 77, urgent_pointer := 5 }
        { data := [], size := 0 }).2).2 =
      { source := 80, destination := 443, sequence := 123456789,
        acknowledgment := 987654321, data_offset := 5,
        control_bits := NETSTACK_TCP_SYN ||| NETSTACK_TCP_ACK,
        window_size := 1234, checksum := 0, urgent_pointer := 5 } :=
  (tcp_pack_unpack_roundtrip
    { source := 80, destination := 443, sequence := 123456789,
      acknowledgment := 987654321, data_offset := 9,
      control_bits := NETSTACK_TCP_SYN ||| NETSTACK_TCP_ACK,
      window_size := 1234, checksum := 77, urgent_pointer := 5 }
    netstack_tcp_init { data := [], size := 0 } (by decide) (by decide)
    (by decide) (by decide) (by decide) (by decide) (by decide)).2.2

/-- Witness for C3: the forced bytes at a concrete header and buffer. -/
theorem tcp_pack_forces_offset_and_checksum_witness :
    (netstack_tcp_pack netstack_buffer_shift netstack_tcp_init
      { data := [], size := 0 }).2.data.getD 12 0 >>> 4 = 5 :=
  (tcp_pack_forces_offset_and_checksum netstack_buffer_shift netstack_tcp_init
    { data := [], size := 0 } (by decide)).1

/-- Witness for C4: parsing the digit string 8080. -/
theorem parse_port_valid_witness :
    parse_port 0 ['8', '0', '8', '0'] 4 = (NETSTACK_ERROR_NONE, 8080) :=
  (parse_port_valid 0 netstack_tcp_init ['8', '0', '8', '0'] (by decide)
    (by decide) (by decide) (by decide)).1

/-- Witness for C5: parsing 70000 fails with BAD_FIELD. -/
theorem parse_port_error_cases_witness :
    (parse_port 0 ['7', '0', '0', '0', '0'] 5).1 =
      NETSTACK_ERROR_BAD_FIELD :=
  ((parse_port_error_cases 0 ['7', '0', '0', '0', '0'] 5 (by decide)).1).mpr
    (Or.inr ⟨by decide, by decide⟩)

/-- Witness for C6: a 6-digit string parses as its first five digits. -/
theorem parse_port_clamp_witness :
    parse_port 0 ['1', '2', '3', '4', '5', '6'] 6 =
      (NETSTACK_ERROR_NONE, 12345) :=
  (parse_port_clamp 0 ['1', '2', '3', '4', '5', '6'] 6 (by decide) (by decide)
    (by decide) (by decide)).1

/-- Witness for C7: unpacking an empty buffer fails with MISSING_DATA. -/
theorem tcp_unpack_length_check_witness :
    netstack_tcp_unpack netstack_tcp_init { data := [], size := 0 } =
      (NETSTACK_ERROR_MISSING_DATA, netstack_tcp_init) :=
  (tcp_unpack_length_check netstack_tcp_init { data := [], size := 0 }).1
    (by decide)

/-- Witness for C8: mutating with an absent callback is the identity. -/
theorem tcp_mutate_callback_witness :
    netstack_tcp_mutate netstack_tcp_init
      ({ data := 0, mutate_tcp := none } : netstack_mutator Nat) =
      (NETSTACK_ERROR_NONE, netstack_tcp_init) :=
  (tcp_mutate_callback netstack_tcp_init
    ({ data := 0, mutate_tcp := none } : netstack_mutator Nat)).1 rfl

/-- Witness for C9: a shift failing in place with code 7 is propagated. -/
theorem tcp_pack_shift_failure_witness :
    netstack_tcp_pack (fun b _ => ((7 : Int), b)) netstack_tcp_init
      { data := [], size := 0 } = ((7 : Int), { data := [], size := 0 }) :=
  (tcp_pack_shift_failure (fun b _ => ((7 : Int), b)) netstack_tcp_init
    { data := [], size := 0 }).1 7 (by decide) rfl

/-- Witness for C10: unpacking a 20-byte zero buffer yields a valid header. -/
theorem tcp_header_invariants_witness :
    header_fields_valid
      (netstack_tcp_unpack netstack_tcp_init
        { data := List.replicate 20 0, size := 20 }).2 :=
  tcp_header_invariants.2.1 netstack_tcp_init
    { data := List.replicate 20 0, size := 20 } (by decide)
